import Mathlib

/-!
Shallow embedding of the Code Execution and Performance Comparison subsystem
of the Python-to-C converter (`code_executor.py`): `CodeExecutor.execute_python`,
`CodeExecutor.execute_c` and `PerformanceComparator.compare_execution`.

The operating-system behaviour that the Python code observes (temporary-file
creation, `subprocess.run` outcomes, `os.unlink` success or failure, measured
wall-clock time) is supplied as an explicit environment record.  Each executor
returns the `(stdout, stderr, elapsed)` triple the Python function returns,
paired with a trace of file-system and process events, so that cleanup and
no-spawn properties can be stated about the trace.
-/

/-- Result of one `subprocess.run` call whose child process ran to completion:
exit code plus captured output streams. -/
structure ProcDone where
  returncode : Int
  stdout : String
  stderr : String
deriving DecidableEq, Repr

/-- Terminal state of one `subprocess.run` call, as the Python caller observes
it: normal completion, `subprocess.TimeoutExpired`, `FileNotFoundError` (the
executable could not be launched; the string is the exception text), or any
other exception with message `msg`. -/
inductive RunOutcome where
  | completed (r : ProcDone)
  | timedOut
  | toolMissing (msg : String)
  | failed (msg : String)
deriving DecidableEq, Repr

/-- Outcome of the workspace-acquisition step: `tempfile.NamedTemporaryFile
(..., delete=False)` followed by `f.write(code)` inside the `with` block.
`ok name`: the file was created, the write succeeded and the name was
recorded into `temp_file` / `temp_c_file`.  `err msg`: `NamedTemporaryFile`
itself raised, so no file exists.  `writeFailed name msg`: the file `name`
was created on disk but `f.write` raised, so the local variable recording
the name was never assigned — the handlers and the `finally` block cannot
see the file. -/
inductive TempCreate where
  | ok (name : String)
  | err (msg : String)
  | writeFailed (name : String) (msg : String)
deriving DecidableEq, Repr

/-- The `(stdout, stderr, execution_time)` triple returned by an executor. -/
structure ExecOutput where
  stdout : String
  stderr : String
  time : ℚ
deriving DecidableEq, Repr

/-- File-system and process events performed by one executor call, in order. -/
inductive Event where
  | created (name : String)
  | removed (name : String)
  | removeFailed (name : String)
  | ranInterpreter (file : String)
  | ranCompiler (src exe : String)
  | ranArtifact (exe : String)
deriving DecidableEq, Repr

/-- Environment for one `execute_python` call: what the OS does at each step.
`unlinkOk` is the success-path `os.unlink(temp_file)`; `handlerUnlinkOk` is the
swallowed unlink attempt inside the `except` handlers. -/
structure PyEnv where
  create : TempCreate
  run : RunOutcome
  elapsed : ℚ
  unlinkOk : Bool
  unlinkErrMsg : String
  handlerUnlinkOk : Bool
deriving DecidableEq, Repr

/-- Environment for one `execute_c` call: temp-file creation, the compiler
invocation outcome, the artifact invocation outcome, the measured run time, and
whether each `os.unlink` in the `finally` block succeeds. -/
structure CEnv where
  create : TempCreate
  compile : RunOutcome
  exec : RunOutcome
  elapsed : ℚ
  cUnlinkOk : Bool
  exeUnlinkOk : Bool
deriving DecidableEq, Repr

/-- Python `str.strip()` whitespace characters (ASCII subset). -/
def isPyWhitespace (c : Char) : Bool :=
  c = ' ' || c = '\t' || c = '\n' || c = '\r' || c = '\x0b' || c = '\x0c'

/-- `not code.strip()` in the source: true iff the string is empty or consists
only of whitespace. -/
def stripIsEmpty (s : String) : Bool :=
  s.toList.all isPyWhitespace

/-- The synthetic message built on `subprocess.TimeoutExpired`, naming the
configured timeout budget in seconds. -/
def timeoutMsg (t : Nat) : String :=
  "Error: Code execution timed out after " ++ toString t ++ " seconds."

/-- The fixed message returned when `FileNotFoundError` is raised in
`execute_c` (the GCC compiler is not installed). -/
def gccNotFoundMsg : String :=
  "Error: GCC compiler not found. Please install GCC to compile C code."

/-- The unlink attempt inside an `except` handler of `execute_python`:
`try: os.unlink(temp_file) except: pass`. -/
def handlerUnlink (name : String) (ok : Bool) : List Event :=
  if ok then [Event.removed name] else [Event.removeFailed name]

/-- `CodeExecutor.execute_python`.  Mirrors the source line by line: empty-input
check, temp-file creation and write, `subprocess.run` with timeout, the
success-path `os.unlink` (which sits inside the `try`, so its failure falls
through to the generic `except Exception` handler), and the two handlers that
unlink best-effort and return synthetic error triples.  When `f.write` raises
after the `delete=False` file was created, `temp_file` is never assigned, so
the handler's `os.unlink(temp_file)` dies on the unbound name (swallowed by
the bare `except`) and the created file stays on disk: the trace keeps the
`created` event with no removal attempt. -/
def execute_python (timeout : Nat) (env : PyEnv) (python_code : String) :
    ExecOutput × List Event :=
  if stripIsEmpty python_code then
    (⟨"", "Error: No Python code provided.", 0⟩, [])
  else
    match env.create with
    | TempCreate.err msg =>
        (⟨"", "Error executing Python code: " ++ msg, 0⟩, [])
    | TempCreate.writeFailed name msg =>
        (⟨"", "Error executing Python code: " ++ msg, 0⟩, [Event.created name])
    | TempCreate.ok temp_file =>
        match env.run with
        | RunOutcome.completed r =>
            if env.unlinkOk then
              (⟨r.stdout, r.stderr, env.elapsed⟩,
               [Event.created temp_file, Event.ranInterpreter temp_file,
                Event.removed temp_file])
            else
              (⟨"", "Error executing Python code: " ++ env.unlinkErrMsg, 0⟩,
               [Event.created temp_file, Event.ranInterpreter temp_file,
                Event.removeFailed temp_file]
                 ++ handlerUnlink temp_file env.handlerUnlinkOk)
        | RunOutcome.timedOut =>
            (⟨"", timeoutMsg timeout, 0⟩,
             [Event.created temp_file, Event.ranInterpreter temp_file]
               ++ handlerUnlink temp_file env.handlerUnlinkOk)
        | RunOutcome.toolMissing msg =>
            (⟨"", "Error executing Python code: " ++ msg, 0⟩,
             [Event.created temp_file]
               ++ handlerUnlink temp_file env.handlerUnlinkOk)
        | RunOutcome.failed msg =>
            (⟨"", "Error executing Python code: " ++ msg, 0⟩,
             [Event.created temp_file]
               ++ handlerUnlink temp_file env.handlerUnlinkOk)

/-- Python `temp_c_file.replace(".c", "")` on the underlying character list:
remove every non-overlapping occurrence of `.c`, scanning left to right. -/
def replaceDotC : List Char → List Char
  | [] => []
  | '.' :: 'c' :: rest => replaceDotC rest
  | c :: rest => c :: replaceDotC rest

/-- The artifact path `execute_c` derives from the temp C source path:
`temp_c_file.replace(".c", "")`. -/
def exePath (s : String) : String :=
  ⟨replaceDotC s.data⟩

/-- The `finally` block of `execute_c`: both unlinks share one `try`, so a
failure removing the C source file raises into the bare `except` and the
artifact unlink is never attempted.  `exeExists` records whether the compiler
actually produced the artifact (the `os.path.exists` guard). -/
def cFinally (cf exe : String) (exeExists cOk exeOk : Bool) : List Event :=
  if cOk then
    Event.removed cf ::
      (if exeExists then
        (if exeOk then [Event.removed exe] else [Event.removeFailed exe])
       else [])
  else
    [Event.removeFailed cf]

/-- `CodeExecutor.execute_c`.  Mirrors the source: empty-input check, temp-file
creation and write with suffix `.c`, artifact path derived by
`temp_c_file.replace(".c", "")`, GCC invocation, early return with
`Compilation error` when the compiler exits non-zero, execution of the
artifact, handlers for timeout / missing GCC / other exceptions, and the
shared-`try` cleanup in `finally`.  When `f.write` raises after the
`delete=False` file was created, `temp_c_file` is still `None`, so the
`finally` guard `if temp_c_file and os.path.exists(...)` skips both unlinks
and the created file stays on disk: the trace keeps the `created` event with
no removal attempt. -/
def execute_c (timeout : Nat) (env : CEnv) (c_code : String) :
    ExecOutput × List Event :=
  if stripIsEmpty c_code then
    (⟨"", "Error: No C code provided.", 0⟩, [])
  else
    match env.create with
    | TempCreate.err msg =>
        (⟨"", "Error executing C code: " ++ msg, 0⟩, [])
    | TempCreate.writeFailed name msg =>
        (⟨"", "Error executing C code: " ++ msg, 0⟩, [Event.created name])
    | TempCreate.ok cf =>
        let exe := exePath cf
        match env.compile with
        | RunOutcome.completed cr =>
            if cr.returncode ≠ 0 then
              (⟨"", "Compilation error:\n" ++ cr.stderr, 0⟩,
               [Event.created cf, Event.ranCompiler cf exe]
                 ++ cFinally cf exe false env.cUnlinkOk env.exeUnlinkOk)
            else
              match env.exec with
              | RunOutcome.completed er =>
                  (⟨er.stdout, er.stderr, env.elapsed⟩,
                   [Event.created cf, Event.ranCompiler cf exe, Event.created exe,
                    Event.ranArtifact exe]
                     ++ cFinally cf exe true env.cUnlinkOk env.exeUnlinkOk)
              | RunOutcome.timedOut =>
                  (⟨"", timeoutMsg timeout, 0⟩,
                   [Event.created cf, Event.ranCompiler cf exe, Event.created exe,
                    Event.ranArtifact exe]
                     ++ cFinally cf exe true env.cUnlinkOk env.exeUnlinkOk)
              | RunOutcome.toolMissing _ =>
                  (⟨"", gccNotFoundMsg, 0⟩,
                   [Event.created cf, Event.ranCompiler cf exe, Event.created exe]
                     ++ cFinally cf exe true env.cUnlinkOk env.exeUnlinkOk)
              | RunOutcome.failed msg =>
                  (⟨"", "Error executing C code: " ++ msg, 0⟩,
                   [Event.created cf, Event.ranCompiler cf exe, Event.created exe]
                     ++ cFinally cf exe true env.cUnlinkOk env.exeUnlinkOk)
        | RunOutcome.timedOut =>
            (⟨"", timeoutMsg timeout, 0⟩,
             [Event.created cf, Event.ranCompiler cf exe]
               ++ cFinally cf exe false env.cUnlinkOk env.exeUnlinkOk)
        | RunOutcome.toolMissing _ =>
            (⟨"", gccNotFoundMsg, 0⟩,
             [Event.created cf]
               ++ cFinally cf exe false env.cUnlinkOk env.exeUnlinkOk)
        | RunOutcome.failed msg =>
            (⟨"", "Error executing C code: " ++ msg, 0⟩,
             [Event.created cf, Event.ranCompiler cf exe]
               ++ cFinally cf exe false env.cUnlinkOk env.exeUnlinkOk)

/-- One side of `PerformanceComparator.compare_execution`'s results dictionary. -/
structure SideResult where
  output : String
  error : String
  time : ℚ
  success : Bool
deriving DecidableEq, Repr

/-- The `comparison` sub-dictionary of the results. -/
structure Verdict where
  faster : String
  speedup : ℚ
  both_successful : Bool
deriving DecidableEq, Repr

/-- The full results dictionary of `compare_execution`. -/
structure CompareResults where
  python : SideResult
  c : SideResult
  comparison : Verdict
deriving DecidableEq, Repr

/-- The comparison block of `compare_execution`: runs only when both sides
succeed; `both_successful` is set before the positive-time check; `py_time >
c_time` picks C as faster, the `else` branch (including exact ties) picks
Python. -/
def mkVerdict (pySuccess cSuccess : Bool) (py_time c_time : ℚ) : Verdict :=
  if pySuccess && cSuccess then
    if 0 < py_time ∧ 0 < c_time then
      if c_time < py_time then ⟨"C", py_time / c_time, true⟩
      else ⟨"Python", c_time / py_time, true⟩
    else ⟨"", 0, true⟩
  else ⟨"", 0, false⟩

/-- `PerformanceComparator.compare_execution`.  The comparator's executor is
constructed with the default timeout of 10 seconds; `success` on each side is
`not bool(error)`, i.e. the error text is empty. -/
def compare_execution (pyEnv : PyEnv) (cEnv : CEnv)
    (python_code c_code : String) : CompareResults :=
  let py := (execute_python 10 pyEnv python_code).1
  let cc := (execute_c 10 cEnv c_code).1
  { python := ⟨py.stdout, py.stderr, py.time, py.stderr == ""⟩
    c := ⟨cc.stdout, cc.stderr, cc.time, cc.stderr == ""⟩
    comparison := mkVerdict (py.stderr == "") (cc.stderr == "") py.time cc.time }

/-- Replay one event against the set (list) of files currently on storage. -/
def applyEvent (fs : List String) : Event → List String
  | Event.created n => fs ++ [n]
  | Event.removed n => fs.filter (fun m => m != n)
  | _ => fs

/-- The files still on storage after a call, computed from its event trace. -/
def remainingFiles (t : List Event) : List String :=
  t.foldl applyEvent []

/-- A faulted `execute_python` environment: one of the exceptional situations
the function's `try` block can raise — temp-file creation failure, a write
failure into the freshly created file, timeout, launch failure, any other
`subprocess.run` exception, or a failing success-path `os.unlink` (which also
raises into the generic handler). -/
def pyFault (env : PyEnv) : Prop :=
  (∃ m, env.create = TempCreate.err m) ∨
  (∃ n m, env.create = TempCreate.writeFailed n m) ∨
  env.run = RunOutcome.timedOut ∨
  (∃ m, env.run = RunOutcome.toolMissing m) ∨
  (∃ m, env.run = RunOutcome.failed m) ∨
  (env.unlinkOk = false ∧ ∃ r, env.run = RunOutcome.completed r)

/-- A faulted `execute_c` environment: temp-file creation failure, a write
failure into the freshly created file, a compilation phase that times out /
cannot launch / raises / exits non-zero, or an execution phase that times out
/ cannot launch / raises. -/
def cFault (env : CEnv) : Prop :=
  (∃ m, env.create = TempCreate.err m) ∨
  (∃ n m, env.create = TempCreate.writeFailed n m) ∨
  env.compile = RunOutcome.timedOut ∨
  (∃ m, env.compile = RunOutcome.toolMissing m) ∨
  (∃ m, env.compile = RunOutcome.failed m) ∨
  (∃ cr, env.compile = RunOutcome.completed cr ∧ cr.returncode ≠ 0) ∨
  (∃ cr, env.compile = RunOutcome.completed cr ∧ cr.returncode = 0 ∧
    (env.exec = RunOutcome.timedOut ∨
     (∃ m, env.exec = RunOutcome.toolMissing m) ∨
     (∃ m, env.exec = RunOutcome.failed m)))

/-- Environment of a clean `execute_python` run: process completes with
stdout `4`, empty stderr, exit code 0, one second elapsed. -/
def pyEnvOk : PyEnv :=
  ⟨TempCreate.ok "/tmp/a.py", RunOutcome.completed ⟨0, "4\n", ""⟩, 1, true, "", true⟩

/-- Environment of a clean `execute_c` run: compile and run both complete with
exit code 0, one second elapsed. -/
def cEnvOk : CEnv :=
  ⟨TempCreate.ok "/tmp/b.c", RunOutcome.completed ⟨0, "", ""⟩,
   RunOutcome.completed ⟨0, "", ""⟩, 1, true, true⟩

/-- Environment of an `execute_python` run whose process exits non-zero while
writing nothing to stderr. -/
def pyEnvExit3 : PyEnv :=
  ⟨TempCreate.ok "/tmp/a.py", RunOutcome.completed ⟨3, "partial", ""⟩, 1, true, "", true⟩

/-- Environment of a slower clean `execute_python` run: two seconds elapsed. -/
def pyEnvSlow : PyEnv :=
  ⟨TempCreate.ok "/tmp/a.py", RunOutcome.completed ⟨0, "4\n", ""⟩, 2, true, "", true⟩

/-- Environment of an `execute_python` run that hits the timeout. -/
def pyEnvT : PyEnv :=
  ⟨TempCreate.ok "/tmp/a.py", RunOutcome.timedOut, 0, true, "", true⟩

/-- Environment of an `execute_c` run whose compilation hits the timeout. -/
def cEnvT : CEnv :=
  ⟨TempCreate.ok "/tmp/b.c", RunOutcome.timedOut, RunOutcome.timedOut, 0, true, true⟩

/-- Environment of an `execute_c` run whose compiler exits non-zero. -/
def cEnvCE : CEnv :=
  ⟨TempCreate.ok "/tmp/c.c", RunOutcome.completed ⟨1, "", "c.c:1:1: error: expected identifier"⟩,
   RunOutcome.completed ⟨0, "", ""⟩, 0, true, true⟩

/-- Environment of an `execute_c` run where removing the temp C source file in
the `finally` block fails while removing the artifact would have succeeded. -/
def cEnvC3 : CEnv :=
  ⟨TempCreate.ok "/tmp/x.c", RunOutcome.completed ⟨0, "", ""⟩,
   RunOutcome.completed ⟨0, "ok", ""⟩, 1, false, true⟩

/-- Environment of an `execute_c` run where removing the artifact in the
`finally` block fails while removing the temp C source file succeeds. -/
def cEnvExeFail : CEnv :=
  ⟨TempCreate.ok "/tmp/y.c", RunOutcome.completed ⟨0, "", ""⟩,
   RunOutcome.completed ⟨0, "", ""⟩, 1, true, false⟩

/-- Environment of an `execute_python` call where the write into the freshly
created temp file raises; every removal that would run succeeds. -/
def pyEnvWF : PyEnv :=
  ⟨TempCreate.writeFailed "/tmp/w.py" "surrogates not allowed", RunOutcome.completed ⟨0, "", ""⟩,
   1, true, "", true⟩

/-- Environment of an `execute_c` call where the write into the freshly
created temp file raises; every removal that would run succeeds. -/
def cEnvWF : CEnv :=
  ⟨TempCreate.writeFailed "/tmp/w.c" "No space left on device", RunOutcome.completed ⟨0, "", ""⟩,
   RunOutcome.completed ⟨0, "", ""⟩, 1, true, true⟩

/-- Environment of an `execute_python` run whose process completes cleanly but
whose success-path `os.unlink` fails. -/
def pyEnvC4 : PyEnv :=
  ⟨TempCreate.ok "/tmp/p.py", RunOutcome.completed ⟨0, "4\n", ""⟩, 1, false,
   "[Errno 13] Permission denied", true⟩

/-- A string with a non-empty left part of an append is non-empty. -/
theorem append_left_ne_empty (s m : String) (h : s ≠ "") : s ++ m ≠ "" := by
  intro hsm
  apply h
  have hd : (s ++ m).data = [] := by rw [hsm]
  rw [String.data_append] at hd
  rcases List.append_eq_nil.mp hd with ⟨h1, h2⟩
  cases s
  simp_all

/-- Claim C8: empty or whitespace-only input makes both executors return
elapsed time 0.0 and the fixed non-empty "No ... code provided" error, with an
empty event trace — no process spawned, no file created. -/
theorem C8_empty_input (t : Nat) (pyEnv : PyEnv) (cEnv : CEnv) (pc cc : String)
    (hp : stripIsEmpty pc = true) (hc : stripIsEmpty cc = true) :
    execute_python t pyEnv pc = (⟨"", "Error: No Python code provided.", 0⟩, []) ∧
    execute_c t cEnv cc = (⟨"", "Error: No C code provided.", 0⟩, []) := by
  constructor
  · simp [execute_python, hp]
  · simp [execute_c, hc]

/-- Witness for C8 at the whitespace-only input and the empty input. -/
theorem C8_empty_input_witness :
    (stripIsEmpty "  \n\t" = true ∧ stripIsEmpty "" = true) ∧
    (execute_python 10 pyEnvOk "  \n\t" =
        (⟨"", "Error: No Python code provided.", 0⟩, []) ∧
     execute_c 10 cEnvOk "" = (⟨"", "Error: No C code provided.", 0⟩, [])) :=
  ⟨⟨by decide, by decide⟩,
   C8_empty_input 10 pyEnvOk cEnvOk "  \n\t" "" (by decide) (by decide)⟩

/-- Claim C9: if either side's error text is non-empty then the comparison
stays at its defaults: both_successful is false, speedup is 0.0 and the faster
label is empty, whatever the elapsed times are. -/
theorem C9_failure_propagation (pyEnv : PyEnv) (cEnv : CEnv) (pc cc : String)
    (h : (compare_execution pyEnv cEnv pc cc).python.error ≠ "" ∨
         (compare_execution pyEnv cEnv pc cc).c.error ≠ "") :
    (compare_execution pyEnv cEnv pc cc).comparison.both_successful = false ∧
    (compare_execution pyEnv cEnv pc cc).comparison.speedup = 0 ∧
    (compare_execution pyEnv cEnv pc cc).comparison.faster = "" := by
  simp only [compare_execution] at h ⊢
  rcases h with h | h
  · simp [mkVerdict, h]
  · simp [mkVerdict, h]

/-- Witness for C9: an empty Python snippet fails, so a comparison against a
clean C run is not ranked. -/
theorem C9_failure_propagation_witness :
    ((compare_execution pyEnvOk cEnvOk "" "int main(void)").python.error ≠ "" ∨
     (compare_execution pyEnvOk cEnvOk "" "int main(void)").c.error ≠ "") ∧
    ((compare_execution pyEnvOk cEnvOk "" "int main(void)").comparison.both_successful = false ∧
     (compare_execution pyEnvOk cEnvOk "" "int main(void)").comparison.speedup = 0 ∧
     (compare_execution pyEnvOk cEnvOk "" "int main(void)").comparison.faster = "") :=
  ⟨Or.inl (by decide),
   C9_failure_propagation pyEnvOk cEnvOk "" "int main(void)" (Or.inl (by decide))⟩

/-- Claim C5: whenever the child process exceeds the configured timeout — the
interpreter run for execute_python, the compilation or the artifact run for
execute_c — the call returns empty stdout, the synthetic message naming the
timeout budget in seconds, and elapsed time 0.0. -/
theorem C5_timeout (t : Nat) (pyEnv : PyEnv) (cEnv : CEnv) (pc cc : String)
    (pname cname : String)
    (hp1 : stripIsEmpty pc = false) (hp2 : pyEnv.create = TempCreate.ok pname)
    (hp3 : pyEnv.run = RunOutcome.timedOut)
    (hc1 : stripIsEmpty cc = false) (hc2 : cEnv.create = TempCreate.ok cname)
    (hc3 : cEnv.compile = RunOutcome.timedOut ∨
           (∃ cr, cEnv.compile = RunOutcome.completed cr ∧ cr.returncode = 0 ∧
                  cEnv.exec = RunOutcome.timedOut)) :
    (execute_python t pyEnv pc).1 = ⟨"", timeoutMsg t, 0⟩ ∧
    (execute_c t cEnv cc).1 = ⟨"", timeoutMsg t, 0⟩ := by
  constructor
  · simp [execute_python, hp1, hp2, hp3]
  · rcases hc3 with h | ⟨cr, hcomp, hrc, hexec⟩
    · simp [execute_c, hc1, hc2, h]
    · simp [execute_c, hc1, hc2, hcomp, hrc, hexec]

/-- Witness for C5 at concrete timed-out environments and the default
10-second budget. -/
theorem C5_timeout_witness :
    (stripIsEmpty "while True: pass" = false ∧
     pyEnvT.create = TempCreate.ok "/tmp/a.py" ∧
     pyEnvT.run = RunOutcome.timedOut ∧
     stripIsEmpty "int main(void)" = false ∧
     cEnvT.create = TempCreate.ok "/tmp/b.c" ∧
     cEnvT.compile = RunOutcome.timedOut) ∧
    ((execute_python 10 pyEnvT "while True: pass").1 = ⟨"", timeoutMsg 10, 0⟩ ∧
     (execute_c 10 cEnvT "int main(void)").1 = ⟨"", timeoutMsg 10, 0⟩) :=
  ⟨⟨by decide, by decide, by decide, by decide, by decide, by decide⟩,
   C5_timeout 10 pyEnvT cEnvT "while True: pass" "int main(void)" "/tmp/a.py" "/tmp/b.c"
     (by decide) (by decide) (by decide) (by decide) (by decide) (Or.inl (by decide))⟩

/-- Events of the shared-try cleanup never include an artifact run. -/
theorem ranArtifact_not_mem_cFinally (cf exe e : String) (a b c : Bool) :
    Event.ranArtifact e ∉ cFinally cf exe a b c := by
  cases a <;> cases b <;> cases c <;> simp [cFinally]

/-- Claim C6: when compilation exits non-zero, execute_c returns immediately
with elapsed 0.0 and a stderr that is exactly the string "Compilation error:",
a newline, then the compiler's stderr — so it begins with "Compilation error"
and contains the compiler's stderr — and the trace holds no artifact run. -/
theorem C6_compile_failure (t : Nat) (env : CEnv) (code cf : String) (cr : ProcDone)
    (h1 : stripIsEmpty code = false) (h2 : env.create = TempCreate.ok cf)
    (h3 : env.compile = RunOutcome.completed cr) (h4 : cr.returncode ≠ 0) :
    (execute_c t env code).1 = ⟨"", "Compilation error:\n" ++ cr.stderr, 0⟩ ∧
    (∀ e, Event.ranArtifact e ∉ (execute_c t env code).2) := by
  constructor
  · simp [execute_c, h1, h2, h3, h4]
  · intro e
    simp only [execute_c, h1, h2, h3, h4]
    simp [ranArtifact_not_mem_cFinally, h4]

/-- Witness for C6 at a concrete failing compilation. -/
theorem C6_compile_failure_witness :
    (stripIsEmpty "int main(" = false ∧
     cEnvCE.create = TempCreate.ok "/tmp/c.c" ∧
     cEnvCE.compile = RunOutcome.completed ⟨1, "", "c.c:1:1: error: expected identifier"⟩ ∧
     (1 : Int) ≠ 0) ∧
    ((execute_c 10 cEnvCE "int main(").1 =
        ⟨"", "Compilation error:\n" ++ "c.c:1:1: error: expected identifier", 0⟩ ∧
     (∀ e, Event.ranArtifact e ∉ (execute_c 10 cEnvCE "int main(").2)) :=
  ⟨⟨by decide, by decide, by decide, by decide⟩,
   C6_compile_failure 10 cEnvCE "int main(" "/tmp/c.c"
     ⟨1, "", "c.c:1:1: error: expected identifier"⟩
     (by decide) (by decide) (by decide) (by decide)⟩

/-- Claim C2: each side's success flag in compare_execution is true exactly
when that side's error text is empty, and the exit code is never consulted: a
run whose process completed with arbitrary (possibly non-zero) exit code and
empty stderr is recorded with success = true. -/
theorem C2_success_is_empty_error (pyEnv : PyEnv) (cEnv : CEnv) (pc cc : String)
    (pname : String) (pr : ProcDone)
    (h1 : stripIsEmpty pc = false) (h2 : pyEnv.create = TempCreate.ok pname)
    (h3 : pyEnv.run = RunOutcome.completed pr) (h4 : pyEnv.unlinkOk = true)
    (h5 : pr.stderr = "") :
    (compare_execution pyEnv cEnv pc cc).python.success = true ∧
    ((compare_execution pyEnv cEnv pc cc).python.success = true ↔
      (compare_execution pyEnv cEnv pc cc).python.error = "") ∧
    ((compare_execution pyEnv cEnv pc cc).c.success = true ↔
      (compare_execution pyEnv cEnv pc cc).c.error = "") := by
  refine ⟨?_, ?_, ?_⟩ <;>
    simp [compare_execution, execute_python, h1, h2, h3, h4, h5]

/-- Witness for C2: the Python process exits with code 3 and stdout only; the
side is still recorded as successful. -/
theorem C2_success_is_empty_error_witness :
    (stripIsEmpty "print(7)" = false ∧
     pyEnvExit3.create = TempCreate.ok "/tmp/a.py" ∧
     pyEnvExit3.run = RunOutcome.completed ⟨3, "partial", ""⟩ ∧
     pyEnvExit3.unlinkOk = true ∧
     (⟨3, "partial", ""⟩ : ProcDone).stderr = "") ∧
    ((compare_execution pyEnvExit3 cEnvOk "print(7)" "int main(void)").python.success = true ∧
     ((compare_execution pyEnvExit3 cEnvOk "print(7)" "int main(void)").python.success = true ↔
       (compare_execution pyEnvExit3 cEnvOk "print(7)" "int main(void)").python.error = "") ∧
     ((compare_execution pyEnvExit3 cEnvOk "print(7)" "int main(void)").c.success = true ↔
       (compare_execution pyEnvExit3 cEnvOk "print(7)" "int main(void)").c.error = "")) :=
  ⟨⟨by decide, by decide, by decide, by decide, by decide⟩,
   C2_success_is_empty_error pyEnvExit3 cEnvOk "print(7)" "int main(void)" "/tmp/a.py"
     ⟨3, "partial", ""⟩ (by decide) (by decide) (by decide) (by decide) (by decide)⟩

/-- Claim C4 fails on the code: the success-path os.unlink sits inside the try
block, so when the interpreter process has completed but the deletion fails,
the generic handler replaces the captured output (stdout "4", empty stderr,
one second elapsed) with an error triple. -/
theorem C4_counterexample :
    pyEnvC4.run = RunOutcome.completed ⟨0, "4\n", ""⟩ ∧
    pyEnvC4.elapsed = 1 ∧
    (execute_python 10 pyEnvC4 "print(2+2)").1 =
      ⟨"", "Error executing Python code: [Errno 13] Permission denied", 0⟩ := by
  refine ⟨by decide, by decide, by decide⟩

/-- Claim C4 amended: if the interpreter process completed and the deletion of
the temporary file succeeds, the returned triple is the captured output and
measured time; if the deletion fails, the failure is caught by the generic
handler and converted into an error result that replaces the primary one. -/
theorem C4_amended (t : Nat) (env : PyEnv) (code pname : String) (pr : ProcDone)
    (h1 : stripIsEmpty code = false) (h2 : env.create = TempCreate.ok pname)
    (h3 : env.run = RunOutcome.completed pr) :
    (env.unlinkOk = true →
      (execute_python t env code).1 = ⟨pr.stdout, pr.stderr, env.elapsed⟩) ∧
    (env.unlinkOk = false →
      (execute_python t env code).1 =
        ⟨"", "Error executing Python code: " ++ env.unlinkErrMsg, 0⟩) := by
  constructor <;> intro h <;> simp [execute_python, h1, h2, h3, h]

/-- Witness for the amended C4 at a clean run with a successful deletion. -/
theorem C4_amended_witness :
    (stripIsEmpty "print(2+2)" = false ∧
     pyEnvOk.create = TempCreate.ok "/tmp/a.py" ∧
     pyEnvOk.run = RunOutcome.completed ⟨0, "4\n", ""⟩) ∧
    ((pyEnvOk.unlinkOk = true →
       (execute_python 10 pyEnvOk "print(2+2)").1 = ⟨"4\n", "", pyEnvOk.elapsed⟩) ∧
     (pyEnvOk.unlinkOk = false →
       (execute_python 10 pyEnvOk "print(2+2)").1 =
         ⟨"", "Error executing Python code: " ++ pyEnvOk.unlinkErrMsg, 0⟩)) :=
  ⟨⟨by decide, by decide, by decide⟩,
   C4_amended 10 pyEnvOk "print(2+2)" "/tmp/a.py" ⟨0, "4\n", ""⟩
     (by decide) (by decide) (by decide)⟩
/-- Claim C7 fails on the code: when the write into the freshly created
temp file raises, the file's name was never recorded, so execute_python's
handler unlink dies on the unbound variable and execute_c's finally guard
skips both unlinks — the created file remains on storage although no removal
was attempted, let alone failed. -/
theorem C7_counterexample :
    pyEnvWF.unlinkOk = true ∧ pyEnvWF.handlerUnlinkOk = true ∧
    cEnvWF.cUnlinkOk = true ∧ cEnvWF.exeUnlinkOk = true ∧
    (execute_python 10 pyEnvWF "print(1)").2 = [Event.created "/tmp/w.py"] ∧
    remainingFiles (execute_python 10 pyEnvWF "print(1)").2 = ["/tmp/w.py"] ∧
    (execute_c 10 cEnvWF "int main(void)").2 = [Event.created "/tmp/w.c"] ∧
    remainingFiles (execute_c 10 cEnvWF "int main(void)").2 = ["/tmp/w.c"] :=
  ⟨by decide, by decide, by decide, by decide, by decide, by decide, by decide,
   by decide⟩

/-- Claim C7 amended: assuming every removal succeeds, and excluding the exit
path where the write into the freshly created workspace file raises, no file
created by a call remains on storage when the call returns; on the excluded
write-failure path exactly the created temp file is leaked, with no removal
attempted. -/
theorem C7_amended (t : Nat) (pyEnv : PyEnv) (cEnv : CEnv) (pc cc : String)
    (h1 : pyEnv.unlinkOk = true) (h2 : pyEnv.handlerUnlinkOk = true)
    (h3 : cEnv.cUnlinkOk = true) (h4 : cEnv.exeUnlinkOk = true)
    (h5 : ∀ n m, pyEnv.create ≠ TempCreate.writeFailed n m)
    (h6 : ∀ n m, cEnv.create ≠ TempCreate.writeFailed n m) :
    (remainingFiles (execute_python t pyEnv pc).2 = [] ∧
     remainingFiles (execute_c t cEnv cc).2 = []) ∧
    ((∀ n m, pyEnv.create = TempCreate.writeFailed n m → stripIsEmpty pc = false →
       remainingFiles (execute_python t pyEnv pc).2 = [n]) ∧
     (∀ n m, cEnv.create = TempCreate.writeFailed n m → stripIsEmpty cc = false →
       remainingFiles (execute_c t cEnv cc).2 = [n])) := by
  refine ⟨⟨?_, ?_⟩, fun n m hn _ => absurd hn (h5 n m),
    fun n m hn _ => absurd hn (h6 n m)⟩
  · by_cases hpc : stripIsEmpty pc = true
    · simp [execute_python, hpc, remainingFiles]
    · have hpc2 : stripIsEmpty pc = false := by simpa using hpc
      cases hcr : pyEnv.create with
      | err m => simp [execute_python, hpc2, hcr, remainingFiles]
      | writeFailed n m => exact absurd hcr (h5 n m)
      | ok n =>
        cases hrun : pyEnv.run with
        | completed r =>
          simp [execute_python, hpc2, hcr, hrun, h1, remainingFiles, applyEvent]
        | timedOut =>
          simp [execute_python, hpc2, hcr, hrun, h2, handlerUnlink, remainingFiles,
            applyEvent]
        | toolMissing m =>
          simp [execute_python, hpc2, hcr, hrun, h2, handlerUnlink, remainingFiles,
            applyEvent]
        | failed m =>
          simp [execute_python, hpc2, hcr, hrun, h2, handlerUnlink, remainingFiles,
            applyEvent]
  · by_cases hcc : stripIsEmpty cc = true
    · simp [execute_c, hcc, remainingFiles]
    · have hcc2 : stripIsEmpty cc = false := by simpa using hcc
      cases hcr : cEnv.create with
      | err m => simp [execute_c, hcc2, hcr, remainingFiles]
      | writeFailed n m => exact absurd hcr (h6 n m)
      | ok cf =>
        cases hcomp : cEnv.compile with
        | completed cr =>
          by_cases hrc : cr.returncode = 0
          · cases hexec : cEnv.exec with
            | completed er =>
              by_cases hfe : exePath cf = cf
              · simp [execute_c, hcc2, hcr, hcomp, hrc, hexec, h3, h4, cFinally,
                  remainingFiles, applyEvent, hfe, List.filter_filter]
              · simp [execute_c, hcc2, hcr, hcomp, hrc, hexec, h3, h4, cFinally,
                  remainingFiles, applyEvent, hfe, List.filter_filter]
            | timedOut =>
              simp [execute_c, hcc2, hcr, hcomp, hrc, hexec, h3, h4, cFinally,
                remainingFiles, applyEvent, List.filter_filter]
            | toolMissing m =>
              simp [execute_c, hcc2, hcr, hcomp, hrc, hexec, h3, h4, cFinally,
                remainingFiles, applyEvent, List.filter_filter]
            | failed m =>
              simp [execute_c, hcc2, hcr, hcomp, hrc, hexec, h3, h4, cFinally,
                remainingFiles, applyEvent, List.filter_filter]
          · simp [execute_c, hcc2, hcr, hcomp, hrc, h3, h4, cFinally,
              remainingFiles, applyEvent]
        | timedOut =>
          simp [execute_c, hcc2, hcr, hcomp, h3, h4, cFinally, remainingFiles,
            applyEvent]
        | toolMissing m =>
          simp [execute_c, hcc2, hcr, hcomp, h3, h4, cFinally, remainingFiles,
            applyEvent]
        | failed m =>
          simp [execute_c, hcc2, hcr, hcomp, h3, h4, cFinally, remainingFiles,
            applyEvent]

/-- Witness for the amended C7 at clean environments where every removal
succeeds and both writes succeeded. -/
theorem C7_amended_witness :
    (pyEnvOk.unlinkOk = true ∧ pyEnvOk.handlerUnlinkOk = true ∧
     cEnvOk.cUnlinkOk = true ∧ cEnvOk.exeUnlinkOk = true ∧
     (∀ n m, pyEnvOk.create ≠ TempCreate.writeFailed n m) ∧
     (∀ n m, cEnvOk.create ≠ TempCreate.writeFailed n m)) ∧
    ((remainingFiles (execute_python 10 pyEnvOk "print(2+2)").2 = [] ∧
      remainingFiles (execute_c 10 cEnvOk "int main(void)").2 = []) ∧
     ((∀ n m, pyEnvOk.create = TempCreate.writeFailed n m →
        stripIsEmpty "print(2+2)" = false →
        remainingFiles (execute_python 10 pyEnvOk "print(2+2)").2 = [n]) ∧
      (∀ n m, cEnvOk.create = TempCreate.writeFailed n m →
        stripIsEmpty "int main(void)" = false →
        remainingFiles (execute_c 10 cEnvOk "int main(void)").2 = [n]))) :=
  ⟨⟨by decide, by decide, by decide, by decide,
    by intro n m h; simp [pyEnvOk] at h, by intro n m h; simp [cEnvOk] at h⟩,
   C7_amended 10 pyEnvOk cEnvOk "print(2+2)" "int main(void)"
     (by decide) (by decide) (by decide) (by decide)
     (by intro n m h; simp [pyEnvOk] at h) (by intro n m h; simp [cEnvOk] at h)⟩

/-- Claim C3 fails on the code: both unlinks in the finally block share one
try, so when removing the temp C source file fails, the artifact removal is
never attempted even though it would have succeeded. -/
theorem C3_counterexample :
    cEnvC3.cUnlinkOk = false ∧ cEnvC3.exeUnlinkOk = true ∧
    Event.created "/tmp/x" ∈ (execute_c 10 cEnvC3 "int main(void)").2 ∧
    Event.removeFailed "/tmp/x.c" ∈ (execute_c 10 cEnvC3 "int main(void)").2 ∧
    Event.removed "/tmp/x" ∉ (execute_c 10 cEnvC3 "int main(void)").2 ∧
    Event.removeFailed "/tmp/x" ∉ (execute_c 10 cEnvC3 "int main(void)").2 :=
  ⟨by decide, by decide, by decide, by decide, by decide, by decide⟩

/-- Claim C3 amended: cleanup is best-effort but sequential inside a single
guard, source file first.  A failure removing the artifact does not disturb the
already-attempted source removal, and when the artifact exists its removal is
attempted whenever the source removal succeeded; but when the source removal
fails, the artifact removal is not attempted at all. -/
theorem C3_amended (t : Nat) (env : CEnv) (code cf : String)
    (h1 : stripIsEmpty code = false) (h2 : env.create = TempCreate.ok cf)
    (hne : exePath cf ≠ cf) :
    (env.cUnlinkOk = true → Event.removed cf ∈ (execute_c t env code).2) ∧
    (env.cUnlinkOk = true → env.exeUnlinkOk = false →
      ∀ cr, env.compile = RunOutcome.completed cr → cr.returncode = 0 →
        Event.removeFailed (exePath cf) ∈ (execute_c t env code).2) ∧
    (env.cUnlinkOk = false →
      Event.removeFailed cf ∈ (execute_c t env code).2 ∧
      Event.removed (exePath cf) ∉ (execute_c t env code).2 ∧
      Event.removeFailed (exePath cf) ∉ (execute_c t env code).2) := by
  refine ⟨?_, ?_, ?_⟩
  · intro hcu
    cases hcomp : env.compile with
    | completed cr =>
      by_cases hrc : cr.returncode = 0
      · cases hexec : env.exec with
        | completed er => simp [execute_c, h1, h2, hcomp, hrc, hexec, hcu, cFinally]
        | timedOut => simp [execute_c, h1, h2, hcomp, hrc, hexec, hcu, cFinally]
        | toolMissing m => simp [execute_c, h1, h2, hcomp, hrc, hexec, hcu, cFinally]
        | failed m => simp [execute_c, h1, h2, hcomp, hrc, hexec, hcu, cFinally]
      · simp [execute_c, h1, h2, hcomp, hrc, hcu, cFinally]
    | timedOut => simp [execute_c, h1, h2, hcomp, hcu, cFinally]
    | toolMissing m => simp [execute_c, h1, h2, hcomp, hcu, cFinally]
    | failed m => simp [execute_c, h1, h2, hcomp, hcu, cFinally]
  · intro hcu hxu cr hcomp hrc
    cases hexec : env.exec with
    | completed er => simp [execute_c, h1, h2, hcomp, hrc, hexec, hcu, hxu, cFinally]
    | timedOut => simp [execute_c, h1, h2, hcomp, hrc, hexec, hcu, hxu, cFinally]
    | toolMissing m => simp [execute_c, h1, h2, hcomp, hrc, hexec, hcu, hxu, cFinally]
    | failed m => simp [execute_c, h1, h2, hcomp, hrc, hexec, hcu, hxu, cFinally]
  · intro hcu
    cases hcomp : env.compile with
    | completed cr =>
      by_cases hrc : cr.returncode = 0
      · cases hexec : env.exec with
        | completed er =>
          simp [execute_c, h1, h2, hcomp, hrc, hexec, hcu, cFinally, hne]
        | timedOut =>
          simp [execute_c, h1, h2, hcomp, hrc, hexec, hcu, cFinally, hne]
        | toolMissing m =>
          simp [execute_c, h1, h2, hcomp, hrc, hexec, hcu, cFinally, hne]
        | failed m =>
          simp [execute_c, h1, h2, hcomp, hrc, hexec, hcu, cFinally, hne]
      · simp [execute_c, h1, h2, hcomp, hrc, hcu, cFinally, hne]
    | timedOut => simp [execute_c, h1, h2, hcomp, hcu, cFinally, hne]
    | toolMissing m => simp [execute_c, h1, h2, hcomp, hcu, cFinally, hne]
    | failed m => simp [execute_c, h1, h2, hcomp, hcu, cFinally, hne]

/-- Witness for the amended C3: the artifact removal fails while the source
removal succeeds; the source file is still removed and the artifact removal
was attempted. -/
theorem C3_amended_witness :
    (stripIsEmpty "int main(void)" = false ∧
     cEnvExeFail.create = TempCreate.ok "/tmp/y.c" ∧
     exePath "/tmp/y.c" ≠ "/tmp/y.c") ∧
    ((cEnvExeFail.cUnlinkOk = true →
       Event.removed "/tmp/y.c" ∈ (execute_c 10 cEnvExeFail "int main(void)").2) ∧
     (cEnvExeFail.cUnlinkOk = true → cEnvExeFail.exeUnlinkOk = false →
       ∀ cr, cEnvExeFail.compile = RunOutcome.completed cr → cr.returncode = 0 →
         Event.removeFailed (exePath "/tmp/y.c") ∈
           (execute_c 10 cEnvExeFail "int main(void)").2) ∧
     (cEnvExeFail.cUnlinkOk = false →
       Event.removeFailed "/tmp/y.c" ∈ (execute_c 10 cEnvExeFail "int main(void)").2 ∧
       Event.removed (exePath "/tmp/y.c") ∉ (execute_c 10 cEnvExeFail "int main(void)").2 ∧
       Event.removeFailed (exePath "/tmp/y.c") ∉
         (execute_c 10 cEnvExeFail "int main(void)").2)) :=
  ⟨⟨by decide, by decide, by decide⟩,
   C3_amended 10 cEnvExeFail "int main(void)" "/tmp/y.c"
     (by decide) (by decide) (by decide)⟩
/-- Ranking behaviour of the comparison block when both sides succeeded and
both times are positive: speedup is the larger time over the smaller one, the
strictly smaller time wins, and an exact tie falls into the else branch and is
labelled Python. -/
theorem mkVerdict_ranking (pt ct : ℚ) (hpt : 0 < pt) (hct : 0 < ct) :
    (mkVerdict true true pt ct).speedup = max pt ct / min pt ct ∧
    (ct < pt → (mkVerdict true true pt ct).faster = "C") ∧
    (pt < ct → (mkVerdict true true pt ct).faster = "Python") ∧
    (pt = ct → (mkVerdict true true pt ct).faster = "Python") := by
  by_cases h : ct < pt
  · simp only [mkVerdict, Bool.and_self, if_pos, if_true]
    rw [if_pos ⟨hpt, hct⟩, if_pos h]
    refine ⟨by rw [max_eq_left h.le, min_eq_right h.le], fun _ => rfl, ?_, ?_⟩
    · intro h2; exact absurd (h.trans h2) (lt_irrefl _)
    · intro h2; rw [h2] at h; exact absurd h (lt_irrefl _)
  · have hle : pt ≤ ct := not_lt.mp h
    simp only [mkVerdict, Bool.and_self, if_pos, if_true]
    rw [if_pos ⟨hpt, hct⟩, if_neg h]
    refine ⟨by rw [max_eq_right hle, min_eq_left hle], ?_, fun _ => rfl, fun _ => rfl⟩
    intro h2; exact absurd h2 h

/-- Claim C1 fails on the code at an exact tie: both sides succeed with equal
positive elapsed times and the label goes to Python, the first (interpreted)
side, not to the second (compiled/C) side. -/
theorem C1_tie_counterexample :
    (compare_execution pyEnvOk cEnvOk "print(2+2)" "int main(void)").python.success = true ∧
    (compare_execution pyEnvOk cEnvOk "print(2+2)" "int main(void)").c.success = true ∧
    (compare_execution pyEnvOk cEnvOk "print(2+2)" "int main(void)").python.time = 1 ∧
    (compare_execution pyEnvOk cEnvOk "print(2+2)" "int main(void)").c.time = 1 ∧
    (compare_execution pyEnvOk cEnvOk "print(2+2)" "int main(void)").comparison.faster
      = "Python" ∧
    (compare_execution pyEnvOk cEnvOk "print(2+2)" "int main(void)").comparison.faster
      ≠ "C" :=
  ⟨by decide, by decide, by decide, by decide, by decide, by decide⟩

/-- Claim C1 amended: when both sides succeed with strictly positive elapsed
times, speedup equals the larger time divided by the smaller and the faster
label names the side with the strictly smaller time; an exact tie is
deterministically assigned to the first (interpreted/Python) side. -/
theorem C1_amended (pyEnv : PyEnv) (cEnv : CEnv) (pc cc : String)
    (hps : (compare_execution pyEnv cEnv pc cc).python.success = true)
    (hcs : (compare_execution pyEnv cEnv pc cc).c.success = true)
    (hpt : 0 < (compare_execution pyEnv cEnv pc cc).python.time)
    (hct : 0 < (compare_execution pyEnv cEnv pc cc).c.time) :
    (compare_execution pyEnv cEnv pc cc).comparison.speedup =
      max (compare_execution pyEnv cEnv pc cc).python.time
        (compare_execution pyEnv cEnv pc cc).c.time /
      min (compare_execution pyEnv cEnv pc cc).python.time
        (compare_execution pyEnv cEnv pc cc).c.time ∧
    ((compare_execution pyEnv cEnv pc cc).c.time <
        (compare_execution pyEnv cEnv pc cc).python.time →
      (compare_execution pyEnv cEnv pc cc).comparison.faster = "C") ∧
    ((compare_execution pyEnv cEnv pc cc).python.time <
        (compare_execution pyEnv cEnv pc cc).c.time →
      (compare_execution pyEnv cEnv pc cc).comparison.faster = "Python") ∧
    ((compare_execution pyEnv cEnv pc cc).python.time =
        (compare_execution pyEnv cEnv pc cc).c.time →
      (compare_execution pyEnv cEnv pc cc).comparison.faster = "Python") := by
  have hps2 : (execute_python 10 pyEnv pc).1.stderr = "" := by
    simpa [compare_execution] using hps
  have hcs2 : (execute_c 10 cEnv cc).1.stderr = "" := by
    simpa [compare_execution] using hcs
  have hpt2 : 0 < (execute_python 10 pyEnv pc).1.time := by
    simpa [compare_execution] using hpt
  have hct2 : 0 < (execute_c 10 cEnv cc).1.time := by
    simpa [compare_execution] using hct
  have h := mkVerdict_ranking _ _ hpt2 hct2
  simpa [compare_execution, hps2, hcs2] using h

/-- Witness for the amended C1: Python takes 2 seconds, C takes 1 second; both
succeed, so the comparison data obeys the amended ranking statement. -/
theorem C1_amended_witness :
    ((compare_execution pyEnvSlow cEnvOk "print(2+2)" "int main(void)").python.success
        = true ∧
     (compare_execution pyEnvSlow cEnvOk "print(2+2)" "int main(void)").c.success = true ∧
     0 < (compare_execution pyEnvSlow cEnvOk "print(2+2)" "int main(void)").python.time ∧
     0 < (compare_execution pyEnvSlow cEnvOk "print(2+2)" "int main(void)").c.time) ∧
    ((compare_execution pyEnvSlow cEnvOk "print(2+2)" "int main(void)").comparison.speedup =
       max (compare_execution pyEnvSlow cEnvOk "print(2+2)" "int main(void)").python.time
         (compare_execution pyEnvSlow cEnvOk "print(2+2)" "int main(void)").c.time /
       min (compare_execution pyEnvSlow cEnvOk "print(2+2)" "int main(void)").python.time
         (compare_execution pyEnvSlow cEnvOk "print(2+2)" "int main(void)").c.time ∧
     ((compare_execution pyEnvSlow cEnvOk "print(2+2)" "int main(void)").c.time <
         (compare_execution pyEnvSlow cEnvOk "print(2+2)" "int main(void)").python.time →
       (compare_execution pyEnvSlow cEnvOk "print(2+2)" "int main(void)").comparison.faster
         = "C") ∧
     ((compare_execution pyEnvSlow cEnvOk "print(2+2)" "int main(void)").python.time <
         (compare_execution pyEnvSlow cEnvOk "print(2+2)" "int main(void)").c.time →
       (compare_execution pyEnvSlow cEnvOk "print(2+2)" "int main(void)").comparison.faster
         = "Python") ∧
     ((compare_execution pyEnvSlow cEnvOk "print(2+2)" "int main(void)").python.time =
         (compare_execution pyEnvSlow cEnvOk "print(2+2)" "int main(void)").c.time →
       (compare_execution pyEnvSlow cEnvOk "print(2+2)" "int main(void)").comparison.faster
         = "Python")) :=
  ⟨⟨by decide, by decide, by decide, by decide⟩,
   C1_amended pyEnvSlow cEnvOk "print(2+2)" "int main(void)"
     (by decide) (by decide) (by decide) (by decide)⟩
/-- The synthetic timeout message is never empty. -/
theorem timeoutMsg_ne_empty (t : Nat) : timeoutMsg t ≠ "" := by
  unfold timeoutMsg
  exact append_left_ne_empty _ _ (append_left_ne_empty _ _ (by decide))

/-- On any faulted environment (or empty input), execute_python returns a
non-empty stderr and elapsed time 0. -/
theorem execute_python_fault_result (t : Nat) (env : PyEnv) (pc : String)
    (hp : pyFault env ∨ stripIsEmpty pc = true) :
    (execute_python t env pc).1.stderr ≠ "" ∧ (execute_python t env pc).1.time = 0 := by
  by_cases hpc : stripIsEmpty pc = true
  · rw [show (execute_python t env pc).1 = ⟨"", "Error: No Python code provided.", 0⟩ by
      simp [execute_python, hpc]]
    exact ⟨by decide, rfl⟩
  · have hpc2 : stripIsEmpty pc = false := by simpa using hpc
    replace hp : pyFault env := hp.resolve_right hpc
    cases hcr : env.create with
    | err m =>
      rw [show (execute_python t env pc).1 =
          ⟨"", "Error executing Python code: " ++ m, 0⟩ by
        simp [execute_python, hpc2, hcr]]
      exact ⟨append_left_ne_empty _ _ (by decide), rfl⟩
    | writeFailed n m =>
      rw [show (execute_python t env pc).1 =
          ⟨"", "Error executing Python code: " ++ m, 0⟩ by
        simp [execute_python, hpc2, hcr]]
      exact ⟨append_left_ne_empty _ _ (by decide), rfl⟩
    | ok n =>
      cases hrun : env.run with
      | completed r =>
        have hu : env.unlinkOk = false := by
          rcases hp with ⟨m, hm⟩ | ⟨n2, m, hm⟩ | hm | ⟨m, hm⟩ | ⟨m, hm⟩ | ⟨hu, _⟩
          · rw [hcr] at hm; exact absurd hm (by simp)
          · rw [hcr] at hm; exact absurd hm (by simp)
          · rw [hrun] at hm; exact absurd hm (by simp)
          · rw [hrun] at hm; exact absurd hm (by simp)
          · rw [hrun] at hm; exact absurd hm (by simp)
          · exact hu
        rw [show (execute_python t env pc).1 =
            ⟨"", "Error executing Python code: " ++ env.unlinkErrMsg, 0⟩ by
          simp [execute_python, hpc2, hcr, hrun, hu]]
        exact ⟨append_left_ne_empty _ _ (by decide), rfl⟩
      | timedOut =>
        rw [show (execute_python t env pc).1 = ⟨"", timeoutMsg t, 0⟩ by
          simp [execute_python, hpc2, hcr, hrun]]
        exact ⟨timeoutMsg_ne_empty t, rfl⟩
      | toolMissing m =>
        rw [show (execute_python t env pc).1 =
            ⟨"", "Error executing Python code: " ++ m, 0⟩ by
          simp [execute_python, hpc2, hcr, hrun]]
        exact ⟨append_left_ne_empty _ _ (by decide), rfl⟩
      | failed m =>
        rw [show (execute_python t env pc).1 =
            ⟨"", "Error executing Python code: " ++ m, 0⟩ by
          simp [execute_python, hpc2, hcr, hrun]]
        exact ⟨append_left_ne_empty _ _ (by decide), rfl⟩

/-- On any faulted environment (or empty input), execute_c returns a non-empty
stderr and elapsed time 0. -/
theorem execute_c_fault_result (t : Nat) (env : CEnv) (cc : String)
    (hc : cFault env ∨ stripIsEmpty cc = true) :
    (execute_c t env cc).1.stderr ≠ "" ∧ (execute_c t env cc).1.time = 0 := by
  by_cases hcc : stripIsEmpty cc = true
  · rw [show (execute_c t env cc).1 = ⟨"", "Error: No C code provided.", 0⟩ by
      simp [execute_c, hcc]]
    exact ⟨by decide, rfl⟩
  · have hcc2 : stripIsEmpty cc = false := by simpa using hcc
    replace hc : cFault env := hc.resolve_right hcc
    cases hcr : env.create with
    | err m =>
      rw [show (execute_c t env cc).1 = ⟨"", "Error executing C code: " ++ m, 0⟩ by
        simp [execute_c, hcc2, hcr]]
      exact ⟨append_left_ne_empty _ _ (by decide), rfl⟩
    | writeFailed n m =>
      rw [show (execute_c t env cc).1 = ⟨"", "Error executing C code: " ++ m, 0⟩ by
        simp [execute_c, hcc2, hcr]]
      exact ⟨append_left_ne_empty _ _ (by decide), rfl⟩
    | ok cf =>
      cases hcomp : env.compile with
      | completed cr =>
        by_cases hrc : cr.returncode = 0
        · cases hexec : env.exec with
          | completed er =>
            exfalso
            rcases hc with ⟨m, hm⟩ | ⟨n2, m, hm⟩ | hm | ⟨m, hm⟩ | ⟨m, hm⟩ |
              ⟨cr2, hm, hrc2⟩ | ⟨cr2, hm, _, hx⟩
            · rw [hcr] at hm; exact absurd hm (by simp)
            · rw [hcr] at hm; exact absurd hm (by simp)
            · rw [hcomp] at hm; exact absurd hm (by simp)
            · rw [hcomp] at hm; exact absurd hm (by simp)
            · rw [hcomp] at hm; exact absurd hm (by simp)
            · rw [hcomp] at hm
              injection hm with h
              rw [h] at hrc
              exact hrc2 hrc
            · rcases hx with hx | ⟨m, hx⟩ | ⟨m, hx⟩ <;>
                (rw [hexec] at hx; exact absurd hx (by simp))
          | timedOut =>
            rw [show (execute_c t env cc).1 = ⟨"", timeoutMsg t, 0⟩ by
              simp [execute_c, hcc2, hcr, hcomp, hrc, hexec]]
            exact ⟨timeoutMsg_ne_empty t, rfl⟩
          | toolMissing m =>
            rw [show (execute_c t env cc).1 = ⟨"", gccNotFoundMsg, 0⟩ by
              simp [execute_c, hcc2, hcr, hcomp, hrc, hexec]]
            exact ⟨by decide, rfl⟩
          | failed m =>
            rw [show (execute_c t env cc).1 = ⟨"", "Error executing C code: " ++ m, 0⟩ by
              simp [execute_c, hcc2, hcr, hcomp, hrc, hexec]]
            exact ⟨append_left_ne_empty _ _ (by decide), rfl⟩
        · rw [show (execute_c t env cc).1 =
              ⟨"", "Compilation error:\n" ++ cr.stderr, 0⟩ by
            simp [execute_c, hcc2, hcr, hcomp, hrc]]
          exact ⟨append_left_ne_empty _ _ (by decide), rfl⟩
      | timedOut =>
        rw [show (execute_c t env cc).1 = ⟨"", timeoutMsg t, 0⟩ by
          simp [execute_c, hcc2, hcr, hcomp]]
        exact ⟨timeoutMsg_ne_empty t, rfl⟩
      | toolMissing m =>
        rw [show (execute_c t env cc).1 = ⟨"", gccNotFoundMsg, 0⟩ by
          simp [execute_c, hcc2, hcr, hcomp]]
        exact ⟨by decide, rfl⟩
      | failed m =>
        rw [show (execute_c t env cc).1 = ⟨"", "Error executing C code: " ++ m, 0⟩ by
          simp [execute_c, hcc2, hcr, hcomp]]
        exact ⟨append_left_ne_empty _ _ (by decide), rfl⟩

/-- Claim C10: the executors are total functions of their input and observed
environment — every modelled fault (temp-file creation failure, timeout,
missing tool, any other exception) is caught and converted into a returned
triple with non-empty stderr and elapsed time 0.0, never re-raised. -/
theorem C10_fault_result (t : Nat) (pyEnv : PyEnv) (cEnv : CEnv) (pc cc : String)
    (hp : pyFault pyEnv ∨ stripIsEmpty pc = true)
    (hc : cFault cEnv ∨ stripIsEmpty cc = true) :
    (execute_python t pyEnv pc).1.stderr ≠ "" ∧ (execute_python t pyEnv pc).1.time = 0 ∧
    (execute_c t cEnv cc).1.stderr ≠ "" ∧ (execute_c t cEnv cc).1.time = 0 := by
  obtain ⟨a, b⟩ := execute_python_fault_result t pyEnv pc hp
  obtain ⟨c, d⟩ := execute_c_fault_result t cEnv cc hc
  exact ⟨a, b, c, d⟩

/-- Witness for C10 at timed-out environments. -/
theorem C10_fault_result_witness :
    ((pyFault pyEnvT ∨ stripIsEmpty "while 1: pass" = true) ∧
     (cFault cEnvT ∨ stripIsEmpty "int main(void) go" = true)) ∧
    ((execute_python 10 pyEnvT "while 1: pass").1.stderr ≠ "" ∧
     (execute_python 10 pyEnvT "while 1: pass").1.time = 0 ∧
     (execute_c 10 cEnvT "int main(void) go").1.stderr ≠ "" ∧
     (execute_c 10 cEnvT "int main(void) go").1.time = 0) :=
  ⟨⟨Or.inl (Or.inr (Or.inr (Or.inl rfl))), Or.inl (Or.inr (Or.inr (Or.inl rfl)))⟩,
   C10_fault_result 10 pyEnvT cEnvT "while 1: pass" "int main(void) go"
     (Or.inl (Or.inr (Or.inr (Or.inl rfl)))) (Or.inl (Or.inr (Or.inr (Or.inl rfl))))⟩
